import Mathlib

/-!
Verification development for the threaded chat server (`src/threaded.cpp`).

The source program is a multi-client chat server in which every client
connection (`ClientSession`) runs a reader thread and a writer thread.
The two threads coordinate shutdown through an atomic bitmask `_state`
(`fetch_or` only, bits are never cleared), and the second thread to
finish enqueues the session to the server's reclamation (reaper) queue
via `ChatServer::removeClient`.

This file is a shallow embedding of that code: the atomic bitmask is a
`Nat`, `fetch_or` is `|||` on the old value, mutexes/condition variables
are modelled by counting the notifications a routine issues and by
stating theorems only under the condition-variable wait predicate, and
the per-session message queue is a `List String`.
-/

namespace Threaded

/-- `ClientSession` state-flag values, from the anonymous enum in
`ClientSession` (`src/threaded.cpp`). -/
def ALL_RUNNING : Nat := 0

/-- Bit set by the reader thread when it finishes. -/
def READER_TERMINATED : Nat := 1

/-- Bit set by the writer thread when it finishes. -/
def WRITER_TERMINATED : Nat := 2

/-- Bit set by `interruptReader` (and hence by `terminate`). -/
def READER_TERMINATION_REQUESTED : Nat := 4

/-- The observable side effects of a `ClientSession`'s shutdown-relevant
routines: the atomic `_state` bitmask, the number of times the session
was handed to `ChatServer::removeClient` (enqueued to the reclamation
queue), the number of `_writerCondition.notify_one` calls, and the
number of `pthread_kill(_readerThread, SIGUSR1)` signals. -/
structure SessionCtx where
  state : Nat
  removeCount : Nat
  writerNotifies : Nat
  readerSignals : Nat
deriving DecidableEq, Repr

/-- `ClientSession::onReaderShutdown`: atomically or `READER_TERMINATED`
into `_state`; if the returned old value has `WRITER_TERMINATED` set,
call `_server.removeClient`, else notify the writer condition. -/
def onReaderShutdown (c : SessionCtx) : SessionCtx :=
  let oldValue := c.state
  let c1 : SessionCtx := { c with state := oldValue ||| READER_TERMINATED }
  if oldValue &&& WRITER_TERMINATED ≠ 0 then
    { c1 with removeCount := c1.removeCount + 1 }
  else
    { c1 with writerNotifies := c1.writerNotifies + 1 }

/-- `ClientSession::interruptReader`: atomically or
`READER_TERMINATION_REQUESTED` into `_state`, then signal the reader
thread with `SIGUSR1`. -/
def interruptReader (c : SessionCtx) : SessionCtx :=
  { c with state := c.state ||| READER_TERMINATION_REQUESTED,
           readerSignals := c.readerSignals + 1 }

/-- `ClientSession::onWriterShutdown`: atomically or `WRITER_TERMINATED`
into `_state`; if the returned old value has `READER_TERMINATED` set,
call `_server.removeClient`, else interrupt the reader. -/
def onWriterShutdown (c : SessionCtx) : SessionCtx :=
  let oldValue := c.state
  let c1 : SessionCtx := { c with state := oldValue ||| WRITER_TERMINATED }
  if oldValue &&& READER_TERMINATED ≠ 0 then
    { c1 with removeCount := c1.removeCount + 1 }
  else
    interruptReader c1

/-- `ClientSession::terminate`: its body is exactly `interruptReader()`. -/
def terminate (c : SessionCtx) : SessionCtx :=
  interruptReader c

/-- `ClientSession::sendMessage`: append the message to the back of
`_messages` (and notify the writer condition).  The routine does not
inspect `_state` and has no failure path. -/
def sendMessage (msgs : List String) (m : String) : List String :=
  msgs ++ [m]

/-- The predicate of the condition-variable wait inside
`ClientSession::getMessage`: `_state != ALL_RUNNING || !_messages.empty()`.
`getMessage` only returns once this holds. -/
def writerWaitCond (state : Nat) (msgs : List String) : Prop :=
  state ≠ ALL_RUNNING ∨ msgs ≠ []

instance (state : Nat) (msgs : List String) : Decidable (writerWaitCond state msgs) := by
  unfold writerWaitCond; infer_instance

/-- `ClientSession::getMessage`, after its condition wait returns
(so under `writerWaitCond`): if `_state != ALL_RUNNING` return a null
pointer (modelled `none`) leaving the queue untouched, else pop and
return the front message.  The `([], state = 0)` case is unreachable
under the wait predicate. -/
def getMessage (state : Nat) (msgs : List String) : Option String × List String :=
  if state ≠ ALL_RUNNING then
    (none, msgs)
  else
    match msgs with
    | [] => (none, [])
    | m :: rest => (some m, rest)

/-! ### Bitmask helper lemmas -/

lemma testBit_of_and_three_eq_zero (s : Nat) (h : s &&& 3 = 0) :
    s.testBit 0 = false ∧ s.testBit 1 = false := by
  have h30 : (3 : Nat).testBit 0 = true := by decide
  have h31 : (3 : Nat).testBit 1 = true := by decide
  constructor
  · have := congrArg (fun n => n.testBit 0) h
    simpa [Nat.testBit_land, h30] using this
  · have := congrArg (fun n => n.testBit 1) h
    simpa [Nat.testBit_land, h31] using this

lemma and_one_eq_zero_of_testBit (s : Nat) (h : s.testBit 0 = false) :
    s &&& 1 = 0 := by
  have h2 := Nat.and_two_pow s 0
  simpa [h] using h2

lemma and_two_eq_zero_of_testBit (s : Nat) (h : s.testBit 1 = false) :
    s &&& 2 = 0 := by
  have h2 := Nat.and_two_pow s 1
  simpa [h] using h2

lemma and_one_ne_zero_of_testBit (s : Nat) (h : s.testBit 0 = true) :
    s &&& 1 ≠ 0 := by
  have h2 := Nat.and_two_pow s 0
  simp [h] at h2
  simp [h2]

lemma and_two_ne_zero_of_testBit (s : Nat) (h : s.testBit 1 = true) :
    s &&& 2 ≠ 0 := by
  have h2 := Nat.and_two_pow s 1
  simp [h] at h2
  simp [h2]

/-! ### C1: the shutdown handshake enqueues to the reclamation queue exactly once -/

/-- C1.  In every interleaving of the reader and writer completions
(the two atomic `fetch_or` read-modify-writes can only execute in one
of two orders), starting from any state in which neither done bit is
set, the first handler to run does not enqueue the session, the second
handler enqueues it exactly once, and the second handler observes the
first one's done bit in the old value returned by its `fetch_or`. -/
theorem C1_handshake_enqueues_exactly_once (c : SessionCtx)
    (h : c.state &&& (READER_TERMINATED ||| WRITER_TERMINATED) = 0) :
    ((onReaderShutdown c).removeCount = c.removeCount ∧
     (onReaderShutdown c).state &&& READER_TERMINATED ≠ 0 ∧
     (onWriterShutdown (onReaderShutdown c)).removeCount = c.removeCount + 1) ∧
    ((onWriterShutdown c).removeCount = c.removeCount ∧
     (onWriterShutdown c).state &&& WRITER_TERMINATED ≠ 0 ∧
     (onReaderShutdown (onWriterShutdown c)).removeCount = c.removeCount + 1) := by
  have h3 : c.state &&& 3 = 0 := by
    simpa [READER_TERMINATED, WRITER_TERMINATED] using h
  obtain ⟨hb0, hb1⟩ := testBit_of_and_three_eq_zero c.state h3
  have ha1 : c.state &&& 1 = 0 := and_one_eq_zero_of_testBit c.state hb0
  have ha2 : c.state &&& 2 = 0 := and_two_eq_zero_of_testBit c.state hb1
  have t1 : (1 : Nat).testBit 0 = true := by decide
  have t2 : (2 : Nat).testBit 1 = true := by decide
  have hA : (c.state ||| 1) &&& 1 ≠ 0 :=
    and_one_ne_zero_of_testBit _ (by simp [Nat.testBit_lor, t1])
  have hB : (c.state ||| 2 ||| 4) &&& 2 ≠ 0 :=
    and_two_ne_zero_of_testBit _ (by simp [Nat.testBit_lor, t2])
  refine ⟨⟨?_, ?_, ?_⟩, ?_, ?_, ?_⟩
  · simp [onReaderShutdown, WRITER_TERMINATED, ha2]
  · simp only [onReaderShutdown, WRITER_TERMINATED, READER_TERMINATED, ha2]
    exact hA
  · simp only [onReaderShutdown, onWriterShutdown, WRITER_TERMINATED,
      READER_TERMINATED, ha2]
    simp [hA]
  · simp [onWriterShutdown, READER_TERMINATED, ha1, interruptReader]
  · simp only [onWriterShutdown, WRITER_TERMINATED, READER_TERMINATED,
      READER_TERMINATION_REQUESTED, ha1, interruptReader]
    simpa using hB
  · simp only [onReaderShutdown, onWriterShutdown, WRITER_TERMINATED,
      READER_TERMINATED, READER_TERMINATION_REQUESTED, ha1, interruptReader]
    simp [hB]

/-- C1 witness: the theorem instantiated at the initial session state
`ALL_RUNNING` with no effects recorded yet. -/
theorem C1_handshake_enqueues_exactly_once_witness :
    (SessionCtx.mk 0 0 0 0).state &&& (READER_TERMINATED ||| WRITER_TERMINATED) = 0 ∧
    (((onReaderShutdown ⟨0, 0, 0, 0⟩).removeCount = (0 : Nat) ∧
      (onReaderShutdown ⟨0, 0, 0, 0⟩).state &&& READER_TERMINATED ≠ 0 ∧
      (onWriterShutdown (onReaderShutdown ⟨0, 0, 0, 0⟩)).removeCount = 0 + 1) ∧
     ((onWriterShutdown ⟨0, 0, 0, 0⟩).removeCount = (0 : Nat) ∧
      (onWriterShutdown ⟨0, 0, 0, 0⟩).state &&& WRITER_TERMINATED ≠ 0 ∧
      (onReaderShutdown (onWriterShutdown ⟨0, 0, 0, 0⟩)).removeCount = 0 + 1)) :=
  ⟨by decide, C1_handshake_enqueues_exactly_once ⟨0, 0, 0, 0⟩ (by decide)⟩

/-! ### C2: when the writer thread's loop exits -/

/-- C2 counterexample.  The claim says the writer loop exits only when
termination has been requested AND the outbound queue is empty, and that
messages queued at the time of a termination request are still sent.
In the code, `getMessage` returns null as soon as `_state != ALL_RUNNING`
without looking at the queue: with `READER_TERMINATION_REQUESTED` set and
`"hello"` still queued, the writer exits (`none`) and the message is left
behind, never sent. -/
theorem C2_writer_exit_counterexample :
    getMessage READER_TERMINATION_REQUESTED ["hello"] = (none, ["hello"]) ∧
    ¬ (getMessage READER_TERMINATION_REQUESTED ["hello"] =
        (none, ["hello"]) → ("hello" :: [] : List String) = []) := by
  constructor
  · decide
  · intro hcontra
    have := hcontra (by decide)
    simp at this

/-- C2 amended: the writer loop exits as soon as any `_state` flag is
set (`_state ≠ ALL_RUNNING`), regardless of the queue contents, leaving
any still-queued messages behind; only while `_state = ALL_RUNNING` does
it dequeue the front message and send it before re-checking. -/
theorem C2_writer_exit_amended (state : Nat) (msgs : List String)
    (hw : writerWaitCond state msgs) :
    (state ≠ ALL_RUNNING → getMessage state msgs = (none, msgs)) ∧
    (state = ALL_RUNNING →
      ∃ m rest, msgs = m :: rest ∧ getMessage state msgs = (some m, rest)) := by
  constructor
  · intro hs
    simp [getMessage, hs]
  · intro hs
    subst hs
    cases msgs with
    | nil =>
        rcases hw with h | h
        · exact absurd rfl h
        · exact absurd rfl h
    | cons m rest =>
        exact ⟨m, rest, rfl, by simp [getMessage, ALL_RUNNING]⟩

/-- C2 amended witness: with `READER_TERMINATED` set the writer exits at
once leaving `"a"` queued; with `ALL_RUNNING` it dequeues and sends `"a"`. -/
theorem C2_writer_exit_amended_witness :
    writerWaitCond READER_TERMINATED ["a"] ∧
    ((READER_TERMINATED ≠ ALL_RUNNING →
        getMessage READER_TERMINATED ["a"] = (none, ["a"])) ∧
     (READER_TERMINATED = ALL_RUNNING →
        ∃ m rest, ["a"] = m :: rest ∧
          getMessage READER_TERMINATED ["a"] = (some m, rest))) :=
  ⟨by decide, C2_writer_exit_amended READER_TERMINATED ["a"] (by decide)⟩

/-! ### C3: what `terminate` actually does -/

/-- C3 counterexample.  The claim says `ClientSession::terminate` wakes
the writer unit so it can observe termination even with an empty
outbound queue.  In the code `terminate` is exactly `interruptReader()`:
it ors `READER_TERMINATION_REQUESTED` into `_state` and signals the
reader thread, but never calls `_writerCondition.notify_one`, so a
writer blocked on an empty queue is not woken by `terminate` itself. -/
theorem C3_terminate_counterexample :
    (terminate ⟨0, 0, 0, 0⟩).writerNotifies = 0 ∧
    ¬ (terminate ⟨0, 0, 0, 0⟩).writerNotifies = 0 + 1 := by
  constructor
  · rfl
  · intro h
    simp [terminate, interruptReader] at h

/-- C3 amended: `terminate` sets `READER_TERMINATION_REQUESTED` and
signals (interrupts) the reader thread; it does not notify the writer
condition variable (the writer is only woken indirectly, by
`onReaderShutdown` once the interrupted reader exits).  It never
enqueues the session to the reclamation queue, so calling it on an
already-quiesced session causes no duplicate enqueue and no error, and
repeating it leaves `_state` unchanged (the bit is already set). -/
theorem C3_terminate_amended (c : SessionCtx) :
    (terminate c).state = c.state ||| READER_TERMINATION_REQUESTED ∧
    (terminate c).readerSignals = c.readerSignals + 1 ∧
    (terminate c).writerNotifies = c.writerNotifies ∧
    (terminate c).removeCount = c.removeCount ∧
    (terminate (terminate c)).state = (terminate c).state := by
  refine ⟨rfl, rfl, rfl, rfl, ?_⟩
  simp [terminate, interruptReader, Nat.lor_assoc]

/-! ### C4: a cleanup failure stops the reaper -/

/-- The outcome of the per-session cleanup performed by
`ChatServer::reaperThread` for one dequeued session (`waitToFinish`,
erase from `_namesToClients`, erase from `_clients`): either it
completes, or it throws an exception carrying a message. -/
inductive CleanupOutcome where
  | ok : CleanupOutcome
  | throws : String → CleanupOutcome
deriving DecidableEq, Repr

/-- `ChatServer::reaperThread` restricted to a given arrival sequence of
sessions: the `while (true)` loop processes sessions in order, and the
single `try`/`catch` is wrapped around the whole loop, so the first
exception aborts the loop and logs `"Reaper thread exception: ..."`
once.  Returns the number of sessions whose cleanup completed and the
logged message, if any. -/
def reaperRun : List CleanupOutcome → Nat × Option String
  | [] => (0, none)
  | CleanupOutcome.ok :: rest =>
      let r := reaperRun rest
      (r.1 + 1, r.2)
  | CleanupOutcome.throws m :: _ =>
      (0, some ("Reaper thread exception: " ++ m))

/-- C4 counterexample.  The claim says a failing cleanup is logged and
the reaper continues with subsequent sessions.  With a failing session
followed by a healthy one, the code processes zero sessions: the
exception escapes the loop (the `catch` is outside the `while`), so the
healthy session is never reclaimed. -/
theorem C4_reaper_counterexample :
    reaperRun [CleanupOutcome.throws "boom", CleanupOutcome.ok] =
      (0, some "Reaper thread exception: boom") ∧
    ¬ (reaperRun [CleanupOutcome.throws "boom", CleanupOutcome.ok]).1 = 1 := by
  constructor
  · rfl
  · intro h
    simp [reaperRun] at h

/-- C4 amended: the first cleanup failure is logged exactly once and
terminates the reaper loop; only the failure-free prefix of sessions is
processed, and no session after the failing one is ever processed,
whatever follows. -/
theorem C4_reaper_amended (pre : List CleanupOutcome) (m : String)
    (post : List CleanupOutcome) (h : ∀ x ∈ pre, x = CleanupOutcome.ok) :
    reaperRun (pre ++ CleanupOutcome.throws m :: post) =
      (pre.length, some ("Reaper thread exception: " ++ m)) := by
  induction pre with
  | nil => simp [reaperRun]
  | cons a pre ih =>
      have ha : a = CleanupOutcome.ok := h a (by simp)
      subst ha
      have ih2 := ih (fun x hx => h x (by simp [hx]))
      simp [reaperRun, ih2]

/-- C4 amended witness: one healthy session, then a failure, then one
more healthy session — exactly one session is processed and the failure
is logged. -/
theorem C4_reaper_amended_witness :
    (∀ x ∈ [CleanupOutcome.ok], x = CleanupOutcome.ok) ∧
    reaperRun ([CleanupOutcome.ok] ++
        CleanupOutcome.throws "boom" :: [CleanupOutcome.ok]) =
      ([CleanupOutcome.ok].length, some ("Reaper thread exception: " ++ "boom")) :=
  ⟨by decide, C4_reaper_amended [CleanupOutcome.ok] "boom" [CleanupOutcome.ok]
    (by decide)⟩

/-! ### C5: who receives a broadcast -/

/-- The `ChatServer` registry state relevant to broadcasting and the
accept loop: `_clients` (the live-session set, as session ids) and
`_namesToClients` (the name → session map; `broadcast` iterates this
one, not `_clients`). -/
structure ServerCtx where
  clients : List Nat
  namesToClients : List (String × Nat)
deriving DecidableEq, Repr

/-- `ChatServer::broadcast`: snapshot the mapped values of
`_namesToClients` under the registry lock, then call `sendMessage` on
every snapshotted session whose identity differs from the sender
(`receiver.get() != &sender`).  `queues` maps a session id to that
session's `_messages` queue. -/
def broadcast (sender : Nat) (names : List (String × Nat)) (msg : String)
    (queues : Nat → List String) : Nat → List String :=
  names.foldl
    (fun qs kv =>
      if kv.2 ≠ sender then
        fun sid => if sid = kv.2 then sendMessage (qs sid) msg else qs sid
      else qs)
    queues

lemma broadcast_cons (sender : Nat) (kv : String × Nat)
    (rest : List (String × Nat)) (msg : String) (q : Nat → List String) :
    broadcast sender (kv :: rest) msg q =
      broadcast sender rest msg
        (if kv.2 ≠ sender then
          fun sid => if sid = kv.2 then sendMessage (q sid) msg else q sid
        else q) := rfl

lemma broadcast_self (sender : Nat) (names : List (String × Nat))
    (msg : String) (q : Nat → List String) :
    broadcast sender names msg q sender = q sender := by
  induction names generalizing q with
  | nil => rfl
  | cons kv rest ih =>
      rw [broadcast_cons]
      by_cases hks : kv.2 = sender
      · rw [if_neg (by simp [hks])]
        exact ih q
      · rw [if_pos hks]
        rw [ih]
        rw [if_neg (fun h => hks h.symm)]

lemma broadcast_other (sender r : Nat) (names : List (String × Nat))
    (msg : String) (q : Nat → List String) (hr : r ≠ sender) :
    broadcast sender names msg q r =
      q r ++ List.replicate ((names.map Prod.snd).count r) msg := by
  induction names generalizing q with
  | nil => simp [broadcast]
  | cons kv rest ih =>
      rw [broadcast_cons]
      by_cases hks : kv.2 = sender
      · rw [if_neg (by simp [hks])]
        rw [ih q]
        have hrk : ¬ r = kv.2 := by
          intro h; exact hr (h.trans hks)
        simp [List.count_cons, hrk]
      · rw [if_pos hks]
        rw [ih]
        by_cases hkr : kv.2 = r
        · rw [if_pos hkr.symm]
          simp only [sendMessage, List.append_assoc, List.singleton_append,
            List.map_cons, hkr, List.count_cons_self, List.replicate_succ]
        · have hrk : ¬ r = kv.2 := fun h => hkr h.symm
          simp [hrk, List.count_cons]

/-- The concrete registry state of the counterexample: session 1 has
been accepted by `ChatServer::run` (so it is in `_clients` and its
threads are running) but has not yet registered a name, while session 0
is registered as "alice". -/
def scenarioCtx : ServerCtx :=
  { clients := [0, 1], namesToClients := [("alice", 0)] }

/-- C5 counterexample.  The claim says a broadcast is enqueued to every
other currently-live session.  Session 1 is live (member of `_clients`)
and distinct from the sender, yet a broadcast by session 0 enqueues
nothing to it, because `ChatServer::broadcast` iterates
`_namesToClients` and session 1 has not yet registered a name. -/
theorem C5_broadcast_counterexample :
    (1 : Nat) ∈ scenarioCtx.clients ∧ (1 : Nat) ≠ 0 ∧
    broadcast 0 scenarioCtx.namesToClients "hi" (fun _ => []) 1 = [] := by
  refine ⟨by decide, by decide, ?_⟩
  rfl

/-- C5 amended: a broadcast by `sender` is enqueued, via `sendMessage`,
to exactly the sessions registered in `_namesToClients` other than the
sender — once per map entry naming them — and never to the sender
itself.  Live sessions not yet in the name map receive nothing (their
occurrence count in the map is zero). -/
theorem C5_broadcast_amended (sender r : Nat) (names : List (String × Nat))
    (msg : String) (q : Nat → List String) :
    broadcast sender names msg q sender = q sender ∧
    (r ≠ sender →
      broadcast sender names msg q r =
        q r ++ List.replicate ((names.map Prod.snd).count r) msg) :=
  ⟨broadcast_self sender names msg q,
   fun hr => broadcast_other sender r names msg q hr⟩

/-- C5 amended witness: with "alice" ↦ 0 and "bob" ↦ 2 registered,
a broadcast by 0 leaves 0's queue untouched and delivers one copy to 2. -/
theorem C5_broadcast_amended_witness :
    (broadcast 0 [("alice", 0), ("bob", 2)] "hi" (fun _ => []) 0 = [] ∧
      ((2 : Nat) ≠ 0 →
        broadcast 0 [("alice", 0), ("bob", 2)] "hi" (fun _ => []) 2 =
          [] ++ List.replicate (([("alice", 0), ("bob", 2)].map Prod.snd).count 2) "hi")) ∧
    broadcast 0 [("alice", 0), ("bob", 2)] "hi" (fun _ => []) 2 = ["hi"] := by
  refine ⟨C5_broadcast_amended 0 2 [("alice", 0), ("bob", 2)] "hi" (fun _ => []), ?_⟩
  rfl

/-! ### C6: exclusive name registration -/

/-- `ChatServer::setClientName`: under `_namesToClientsMutex`, look the
name up in `_namesToClients` (the map is keyed by string value via
`PtrLess`); if present return `false`, else record the name on the
client and insert the mapping, returning `true`. -/
def setClientName (names : List (String × Nat)) (client : Nat)
    (name : String) : Bool × List (String × Nat) :=
  match names.find? (fun kv => kv.1 == name) with
  | some _ => (false, names)
  | none => (true, names ++ [(name, client)])

/-- N serialized attempts (the mutex serializes concurrent callers) to
register the same `name` by the given clients, in order; returns the
number of successes and the final map. -/
def registerAttempts (name : String) :
    List (String × Nat) → List Nat → Nat × List (String × Nat)
  | names, [] => (0, names)
  | names, c :: cs =>
      let r := setClientName names c name
      let rest := registerAttempts name r.2 cs
      ((if r.1 then 1 else 0) + rest.1, rest.2)

/-- The replies sent by `ClientSession::readerThread` after a
registration attempt. -/
def loginReply (ok : Bool) (name : String) : String :=
  if ok then "Welcome to the chat, " ++ name ++ "!\n"
  else "Name '" ++ name ++ "' is already taken, invent another one.\n"

/-- The login loop guard of `ClientSession::readerThread`:
`!loginSuccessfull && _state == ALL_RUNNING` — a failed attempt
re-prompts, a successful one proceeds to the chat loop. -/
def loginLoopContinues (loginSuccessfull : Bool) (state : Nat) : Bool :=
  !loginSuccessfull && (state == ALL_RUNNING)

lemma setClientName_success_iff (names : List (String × Nat))
    (client : Nat) (name : String) :
    (setClientName names client name).1 = true ↔
      ∀ kv ∈ names, kv.1 ≠ name := by
  unfold setClientName
  cases hfind : names.find? (fun kv => kv.1 == name) with
  | none =>
      simp only [List.find?_eq_none] at hfind
      constructor
      · intro _ kv hkv
        have h2 := hfind kv hkv
        simpa using h2
      · intro _
        rfl
  | some v =>
      have hv := List.find?_some hfind
      have hmem := List.mem_of_find?_eq_some hfind
      simp only [beq_iff_eq] at hv
      constructor
      · intro hfalse
        simp at hfalse
      · intro hall
        exact absurd hv (hall v hmem)

lemma setClientName_fail_of_present (names : List (String × Nat))
    (client : Nat) (name : String)
    (h : ¬ ∀ kv ∈ names, kv.1 ≠ name) :
    setClientName names client name = (false, names) := by
  unfold setClientName
  cases hfind : names.find? (fun kv => kv.1 == name) with
  | none =>
      exfalso
      apply h
      intro kv hkv
      simp only [List.find?_eq_none] at hfind
      have h2 := hfind kv hkv
      simpa using h2
  | some v => rfl

lemma registerAttempts_present (name : String) (names : List (String × Nat))
    (h : ¬ ∀ kv ∈ names, kv.1 ≠ name) :
    ∀ cs, registerAttempts name names cs = (0, names) := by
  intro cs
  induction cs with
  | nil => rfl
  | cons c cs ih =>
      have hfail := setClientName_fail_of_present names c name h
      simp only [registerAttempts]
      rw [hfail]
      simp [ih]

lemma registerAttempts_absent (name : String) (names : List (String × Nat))
    (h : ∀ kv ∈ names, kv.1 ≠ name) (c : Nat) (cs : List Nat) :
    (registerAttempts name names (c :: cs)).1 = 1 := by
  have hs : setClientName names c name = (true, names ++ [(name, c)]) := by
    unfold setClientName
    cases hfind : names.find? (fun kv => kv.1 == name) with
    | none => rfl
    | some v =>
        exfalso
        have hv := List.find?_some hfind
        have hmem := List.mem_of_find?_eq_some hfind
        simp only [beq_iff_eq] at hv
        exact h v hmem hv
  have hpresent : ¬ ∀ kv ∈ names ++ [(name, c)], kv.1 ≠ name := by
    intro hall
    exact hall (name, c) (by simp) rfl
  have hrest := registerAttempts_present name (names ++ [(name, c)]) hpresent cs
  simp only [registerAttempts]
  rw [hs]
  simp [hrest]

/-- C6.  Name registration is exclusive: `setClientName` succeeds iff
the name is not currently registered; of N ≥ 1 serialized attempts at
the same free name exactly the first succeeds; and the reader thread
replies "Welcome to the chat, <name>!" on success or
"Name '<name>' is already taken, invent another one." (and loops to
re-prompt) on failure. -/
theorem C6_name_registration_exclusive (names : List (String × Nat))
    (client : Nat) (name : String) (c : Nat) (cs : List Nat)
    (h : ∀ kv ∈ names, kv.1 ≠ name) :
    ((setClientName names client name).1 = true ↔
      ∀ kv ∈ names, kv.1 ≠ name) ∧
    (registerAttempts name names (c :: cs)).1 = 1 ∧
    loginReply true name = "Welcome to the chat, " ++ name ++ "!\n" ∧
    loginReply false name =
      "Name '" ++ name ++ "' is already taken, invent another one.\n" ∧
    loginLoopContinues false ALL_RUNNING = true ∧
    loginLoopContinues true ALL_RUNNING = false :=
  ⟨setClientName_success_iff names client name,
   registerAttempts_absent name names h c cs, rfl, rfl, rfl, rfl⟩

/-- C6 witness: on a registry where only "alice" is taken, three
serialized attempts to register "bob" yield exactly one success. -/
theorem C6_name_registration_exclusive_witness :
    (∀ kv ∈ [("alice", 7)], kv.1 ≠ "bob") ∧
    (((setClientName [("alice", 7)] 1 "bob").1 = true ↔
        ∀ kv ∈ [("alice", 7)], kv.1 ≠ "bob") ∧
      (registerAttempts "bob" [("alice", 7)] (1 :: [2, 3])).1 = 1 ∧
      loginReply true "bob" = "Welcome to the chat, " ++ "bob" ++ "!\n" ∧
      loginReply false "bob" =
        "Name '" ++ "bob" ++ "' is already taken, invent another one.\n" ∧
      loginLoopContinues false ALL_RUNNING = true ∧
      loginLoopContinues true ALL_RUNNING = false) :=
  ⟨by decide, C6_name_registration_exclusive [("alice", 7)] 1 "bob" 1 [2, 3]
    (by decide)⟩

/-! ### C7: exception handling at the thread boundary -/

/-- The name formatting used by the catch blocks of both thread
functions: a registered name is quoted, an unnamed session (null
`getName()`) prints as `"(null)"`. -/
def formatName : Option String → String
  | some n => "'" ++ n ++ "'"
  | none => "(null)"

/-- The log line printed by the catch block of
`ClientSession::readerThread`. -/
def readerLog (name : Option String) (what : String) : String :=
  "Client " ++ formatName name ++ " reader thread exeption: " ++ what

/-- The log line printed by the catch block of
`ClientSession::writerThread`. -/
def writerLog (name : Option String) (what : String) : String :=
  "Client " ++ formatName name ++ " writer thread exeption: " ++ what

/-- `ClientSession::readerThread` at the thread boundary: the body runs
inside `try`/`catch (std::exception&)`; an exception is logged, and
`onReaderShutdown()` runs after the try/catch in both outcomes. -/
def runReaderUnit (body : Except String Unit) (name : Option String)
    (c : SessionCtx) : SessionCtx × Option String :=
  match body with
  | Except.ok _ => (onReaderShutdown c, none)
  | Except.error what => (onReaderShutdown c, some (readerLog name what))

/-- `ClientSession::writerThread` at the thread boundary, likewise. -/
def runWriterUnit (body : Except String Unit) (name : Option String)
    (c : SessionCtx) : SessionCtx × Option String :=
  match body with
  | Except.ok _ => (onWriterShutdown c, none)
  | Except.error what => (onWriterShutdown c, some (writerLog name what))

/-- C7 counterexample.  The claim says an unnamed session is logged as
`"(unknown)"`; the code formats a null name as `"(null)"`. -/
theorem C7_log_name_counterexample :
    formatName none = "(null)" ∧ ¬ formatName none = "(unknown)" := by
  constructor
  · rfl
  · intro h
    simp [formatName] at h

/-- C7 amended: an uncaught exception in a unit's loop is caught at the
thread boundary and logged with the session's identity — the quoted name,
or `"(null)"` (not `"(unknown)"`) if unnamed — and the same shutdown
handler (`onReaderShutdown` / `onWriterShutdown`) runs as on normal
termination, whether or not an exception occurred, so reclamation still
happens. -/
theorem C7_unit_exception_amended (body : Except String Unit)
    (name : Option String) (c : SessionCtx) (what : String) (n : String) :
    (runReaderUnit body name c).1 = onReaderShutdown c ∧
    (runWriterUnit body name c).1 = onWriterShutdown c ∧
    (runReaderUnit (Except.error what) name c).2 =
      some ("Client " ++ formatName name ++ " reader thread exeption: " ++ what) ∧
    (runWriterUnit (Except.error what) name c).2 =
      some ("Client " ++ formatName name ++ " writer thread exeption: " ++ what) ∧
    (runReaderUnit (Except.ok ()) name c).2 = none ∧
    formatName (some n) = "'" ++ n ++ "'" ∧
    formatName none = "(null)" := by
  refine ⟨?_, ?_, rfl, rfl, rfl, rfl, rfl⟩
  · cases body <;> rfl
  · cases body <;> rfl

/-! ### C8: the command line -/

/-- `boost::lexical_cast<int>`: the whole argument must be an optional
sign followed by at least one decimal digit, and the value must fit in
a 32-bit `int`; otherwise the cast throws `bad_lexical_cast`. -/
def lexicalCastInt (s : String) : Option Int :=
  let cs := s.toList
  let signAndDigits : Int × List Char :=
    match cs with
    | '-' :: rest => (-1, rest)
    | '+' :: rest => (1, rest)
    | _ => (1, cs)
  match signAndDigits.2 with
  | [] => none
  | ds =>
      if ds.all Char.isDigit then
        let v : Int := signAndDigits.1 *
          (ds.foldl (fun n c => n * 10 + (c.toNat - 48)) 0 : Nat)
        if -2147483648 ≤ v ∧ v ≤ 2147483647 then some v else none
      else none

/-- What `main` prints before exiting. -/
inductive MainOutcome where
  | usageError : MainOutcome
  | mainThreadException : MainOutcome
  | cleanShutdown : MainOutcome
deriving DecidableEq, Repr

/-- `main` (`src/threaded.cpp`): with fewer than two `argv` entries it
prints `"Usage: <prog> <port>"` and returns 1; otherwise it constructs
`ChatServer(lexical_cast<int>(argv[1]))` and calls `run()`.  A
`bad_lexical_cast` (or any other exception) is caught by the outer
catch, which prints `"Main thread exception: ..."` and returns 1; on a
clean shutdown `run()` returns and `main` returns 0.  The server's
network behaviour is abstracted as succeeding. -/
def mainRun (args : List String) : Nat × MainOutcome :=
  match args with
  | [] => (1, MainOutcome.usageError)
  | [_] => (1, MainOutcome.usageError)
  | _ :: portArg :: _ =>
      match lexicalCastInt portArg with
      | none => (1, MainOutcome.mainThreadException)
      | some _ => (0, MainOutcome.cleanShutdown)

/-- C8 counterexample.  The claim says an invalid argument produces the
usage message.  An invalid (non-numeric) argument makes
`lexical_cast<int>` throw, so `main` prints `"Main thread exception:"`,
not the usage message (the exit status is still 1). -/
theorem C8_cli_counterexample :
    lexicalCastInt "xyz" = none ∧
    mainRun ["./threaded", "xyz"] = (1, MainOutcome.mainThreadException) ∧
    ¬ (mainRun ["./threaded", "xyz"]).2 = MainOutcome.usageError := by
  refine ⟨rfl, rfl, ?_⟩
  intro h
  simp [mainRun, lexicalCastInt] at h

/-- C8 amended: with no port argument `main` exits with status 1 and
the usage message; with an argument that is not a valid `int` it exits
with status 1 but prints the main-thread exception message, not usage;
with a valid port it exits with status 0 on clean shutdown (extra
arguments beyond the first are ignored). -/
theorem C8_cli_amended (prog a : String) (rest : List String) :
    mainRun [prog] = (1, MainOutcome.usageError) ∧
    (lexicalCastInt a = none →
      mainRun (prog :: a :: rest) = (1, MainOutcome.mainThreadException)) ∧
    (∀ v, lexicalCastInt a = some v →
      mainRun (prog :: a :: rest) = (0, MainOutcome.cleanShutdown)) := by
  refine ⟨rfl, ?_, ?_⟩
  · intro h
    simp [mainRun, h]
  · intro v h
    simp [mainRun, h]

/-- C8 amended witness, at port argument `"8080"`. -/
theorem C8_cli_amended_witness :
    (mainRun ["./threaded"] = (1, MainOutcome.usageError) ∧
      (lexicalCastInt "8080" = none →
        mainRun ["./threaded", "8080"] = (1, MainOutcome.mainThreadException)) ∧
      (∀ v, lexicalCastInt "8080" = some v →
        mainRun ["./threaded", "8080"] = (0, MainOutcome.cleanShutdown))) ∧
    mainRun ["./threaded", "8080"] = (0, MainOutcome.cleanShutdown) := by
  refine ⟨C8_cli_amended "./threaded" "8080" [], ?_⟩
  rfl

/-! ### C9: `sendMessage` cannot fail, and late messages are never delivered -/

/-- C9.  `sendMessage` is a total operation with no error path: whatever
the session state, it appends the message at the tail of `_messages`
and returns (the code never reads `_state` there).  Once any done bit
is set — in particular after both units have terminated — `getMessage`
returns null without dequeuing, so such a late message stays in the
queue and is never delivered. -/
theorem C9_sendMessage_total (msgs : List String) (m : String) (state : Nat)
    (h : state &&& (READER_TERMINATED ||| WRITER_TERMINATED) ≠ 0) :
    sendMessage msgs m = msgs ++ [m] ∧
    getMessage state (sendMessage msgs m) = (none, msgs ++ [m]) := by
  refine ⟨rfl, ?_⟩
  have hs : state ≠ ALL_RUNNING := by
    intro h0
    rw [h0] at h
    exact h (by decide)
  simp [getMessage, sendMessage, hs]

/-- C9 witness: both done bits set, a message sent afterwards is parked
in the queue and `getMessage` does not deliver it. -/
theorem C9_sendMessage_total_witness :
    (READER_TERMINATED ||| WRITER_TERMINATED) &&&
        (READER_TERMINATED ||| WRITER_TERMINATED) ≠ 0 ∧
    (sendMessage [] "late" = [] ++ ["late"] ∧
      getMessage (READER_TERMINATED ||| WRITER_TERMINATED)
          (sendMessage [] "late") = (none, [] ++ ["late"])) :=
  ⟨by decide,
   C9_sendMessage_total [] "late" (READER_TERMINATED ||| WRITER_TERMINATED)
     (by decide)⟩

/-! ### C10: the accept loop under termination -/

/-- One iteration of `ChatServer::run` after `_acceptor.accept` returns
a new session: under `_clientsMutex`, only if `_isTerminating` is still
false is the session inserted into `_clients` and `start()` called on
it; otherwise the freshly created session is dropped.  Returns the new
live set and whether the session was inserted-and-started. -/
def runIteration (isTerminating : Bool) (clients : List Nat) (client : Nat) :
    List Nat × Bool :=
  if isTerminating then (clients, false) else (clients ++ [client], true)

/-- `ChatServer::run`'s accept loop over a sequence of accepted
connections, each paired with the value of `_isTerminating` the
iteration observes under the lock; returns the final live set. -/
def runLoop (clients : List Nat) : List (Bool × Nat) → List Nat
  | [] => clients
  | (t, c) :: rest => runLoop (runIteration t clients c).1 rest

lemma runLoop_all_terminating (clients : List Nat) (l : List (Bool × Nat))
    (h : ∀ p ∈ l, p.1 = true) : runLoop clients l = clients := by
  induction l with
  | nil => rfl
  | cons p rest ih =>
      cases p with
      | mk t c =>
          have ht : t = true := h (t, c) (by simp)
          subst ht
          simp only [runLoop, runIteration, if_pos rfl]
          exact ih (fun p hp => h p (by simp [hp]))

lemma runLoop_append (clients : List Nat) (l1 l2 : List (Bool × Nat)) :
    runLoop clients (l1 ++ l2) = runLoop (runLoop clients l1) l2 := by
  induction l1 generalizing clients with
  | nil => rfl
  | cons p rest ih =>
      cases p with
      | mk t c =>
          simp only [List.cons_append, runLoop]
          exact ih _

/-- C10.  If an iteration of the accept loop observes `_isTerminating`
set after accepting, the new session is discarded: not inserted into
`_clients` and never started.  Since `_isTerminating` is monotone (set
once by `shutdown()` and never cleared), from the first iteration that
observes it onward the live set never grows again: `run()` starts no
further session. -/
theorem C10_no_sessions_after_terminating (clients : List Nat) (c : Nat)
    (pre post : List (Bool × Nat))
    (hmono : ∀ p ∈ post, p.1 = true) :
    runIteration true clients c = (clients, false) ∧
    runLoop clients (pre ++ (true, c) :: post) = runLoop clients pre := by
  constructor
  · rfl
  · rw [runLoop_append]
    simp only [runLoop, runIteration, if_pos rfl]
    exact runLoop_all_terminating _ post hmono

/-- C10 witness: session 5 is accepted while the server is already
terminating (and a later accept is too); neither changes the live set. -/
theorem C10_no_sessions_after_terminating_witness :
    (∀ p ∈ [((true : Bool), (6 : Nat))], p.1 = true) ∧
    (runIteration true [0, 1] 5 = ([0, 1], false) ∧
      runLoop [0, 1] ([(false, 2)] ++ (true, 5) :: [(true, 6)]) =
        runLoop [0, 1] [(false, 2)]) :=
  ⟨by decide,
   C10_no_sessions_after_terminating [0, 1] 5 [(false, 2)] [(true, 6)]
     (by decide)⟩

end Threaded
